import Mathlib

/-!
Verification of the `qvm` VM-descriptor lifecycle manager.

The Rust sources (`src/utils/paths.rs`, `src/utils/system.rs`,
`src/vm/firmware.rs`, `src/vm/config.rs`, `src/vm/manager.rs`,
`src/vm/creator.rs`, `src/config/schema.rs`) are shallowly embedded below.
Paths are plain strings (no `.`/`..`/double-slash normalisation, matching
the source, which never normalises either).  The filesystem is an explicit
finite state threaded through the stateful operations; external effects
(home-directory lookup, `which`, `ps`, `qemu-img`, UUID/MAC/clock
randomness, `canonicalize`, the `/nix/store` directory listing) are
environment parameters.  JSON files are stored as parsed documents
(`serde_json::Value` level): the byte-level JSON printer/parser of
`serde_json` is outside the model, so descriptor (de)serialisation is
modelled document-to-struct, exactly the `Serialize`/`Deserialize` derive
logic of `schema.rs`.
-/

set_option maxHeartbeats 1600000

namespace Qvm

/-! ## String primitives

Core `String` routines (`startsWith`, `trim`, `splitOn`, ...) are
re-implemented here by structural recursion over the character list, so
that every definition in this file evaluates by kernel reduction on
concrete inputs.  Semantics follow the Rust `str` methods the source
calls (for `trim`/`to_lowercase` restricted to the ASCII range the
confirmations and pid files use). -/

/-- Rust `str::starts_with` for a literal pattern. -/
def strStartsWith (s pre : String) : Bool :=
  pre.toList.isPrefixOf s.toList

/-- ASCII whitespace recognised by `str::trim` (space, tab, LF, CR). -/
def charIsWS (c : Char) : Bool :=
  c == ' ' || c == '\t' || c == '\n' || c == '\r'

/-- Rust `str::trim` (over the ASCII whitespace above). -/
def strTrim (s : String) : String :=
  String.mk (((s.toList.dropWhile charIsWS).reverse.dropWhile charIsWS).reverse)

/-- ASCII lowercasing of one character (`char::to_lowercase` on ASCII). -/
def charLower (c : Char) : Char :=
  if 65 ≤ c.toNat ∧ c.toNat ≤ 90 then Char.ofNat (c.toNat + 32) else c

/-- Rust `str::to_lowercase` on ASCII content. -/
def strToLower (s : String) : String :=
  String.mk (s.toList.map charLower)

/-- ASCII digit test (`char::is_ascii_digit`, what `parse::<u32>`
accepts). -/
def charIsDigit (c : Char) : Bool :=
  48 ≤ c.toNat && c.toNat ≤ 57

/-- Split a character list on a non-empty separator, fuelled by the list
length (every step consumes at least one character). -/
def splitOnListAux (sep : List Char) : Nat → List Char → List Char →
    List (List Char)
  | _, acc, [] => [acc.reverse]
  | 0, acc, rest => [acc.reverse ++ rest]
  | fuel + 1, acc, c :: cs =>
    if sep.isPrefixOf (c :: cs) then
      acc.reverse :: splitOnListAux sep fuel [] ((c :: cs).drop sep.length)
    else
      splitOnListAux sep fuel (c :: acc) cs

/-- Rust `str::split` on a non-empty literal separator (also the
semantics of Lean `String.splitOn` away from the empty separator). -/
def strSplitOn (s sep : String) : List String :=
  (splitOnListAux sep.toList s.toList.length [] s.toList).map String.mk

/-- Concatenate with a separator between the pieces. -/
def strIntercalate (sep : String) : List String → String
  | [] => ""
  | [x] => x
  | x :: xs => x ++ sep ++ strIntercalate sep xs

/-- Rust `str::contains` for a non-empty literal pattern. -/
def strContainsSub (s pat : String) : Bool :=
  (strSplitOn s pat).length != 1

/-- Rust `str::replace`: replace every non-overlapping occurrence of `pat`
by `rep`, left to right. -/
def strReplaceAll (s pat rep : String) : String :=
  strIntercalate rep (strSplitOn s pat)

/-! ## Path primitives (Unix `Path` semantics used by the source) -/

/-- Rust `Path::is_absolute` on Unix. -/
def pathIsAbs (p : String) : Bool := strStartsWith p "/"

/-- Rust `Path::join`: an absolute argument replaces the base, joining onto
an empty base yields the argument, otherwise the components are separated
by one slash.  (Paths already ending in a slash are not re-normalised,
like the source.) -/
def pathJoin (root p : String) : String :=
  if pathIsAbs p then p
  else if root = "" then p
  else root ++ "/" ++ p

/-- Rust `Path::parent` on slash-separated paths without trailing slashes:
drop the final component; `some ""` for a bare file name, `none` for the
empty path. -/
def parentDir (p : String) : Option String :=
  match strSplitOn p "/" with
  | [] => none
  | [_] => if p = "" then none else some ""
  | comps =>
    let front := comps.dropLast
    if front = [""] then some "/" else some (strIntercalate "/" front)

/-- Source `utils/paths.rs::resolve_under_root`. -/
def resolve_under_root (root p : String) : String :=
  if pathIsAbs p then p else pathJoin root p

/-- Source `utils/paths.rs::conf_path`. -/
def conf_path (root : String) : String := pathJoin root "vm.json"

/-! ## JSON documents (`serde_json::Value`) and the descriptor schema -/

/-- A JSON document.  Numbers are integers: the schema of `schema.rs`
serialises only unsigned integer fields. -/
inductive Json where
  | null
  | bool (b : Bool)
  | num (n : Int)
  | str (s : String)
  | arr (elems : List Json)
  | obj (fields : List (String × Json))

/-- First binding of key `k` in a JSON object's field list (serde matches
fields by name, first occurrence wins). -/
def jLookup (fields : List (String × Json)) (k : String) : Option Json :=
  match fields with
  | [] => none
  | (k2, v) :: rest => if k2 == k then some v else jLookup rest k

/-- Deserialise an unsigned integer with exclusive upper bound `bound`
(serde rejects negative and out-of-range numbers for `uN` fields). -/
def asUInt (bound : Nat) (j : Json) : Option Nat :=
  match j with
  | .num (.ofNat n) => if n < bound then some n else none
  | _ => none

def asU32 : Json → Option Nat := asUInt 4294967296
def asU16 : Json → Option Nat := asUInt 65536
def asU8 : Json → Option Nat := asUInt 256

def asStr (j : Json) : Option String :=
  match j with
  | .str s => some s
  | _ => none

def asBool (j : Json) : Option Bool :=
  match j with
  | .bool b => some b
  | _ => none

def objFields (j : Json) : Option (List (String × Json)) :=
  match j with
  | .obj fields => some fields
  | _ => none

/-- Source `schema.rs::Meta` (u32 `version`; `PathBuf`s are modelled as strings
throughout the schema, their serde form). -/
structure Meta where
  version : Nat
  generated : String
  name : String
  arch : String
  uuid : String
deriving DecidableEq

/-- Source `schema.rs::Paths`. -/
structure Paths where
  root : String
  disk : String
  efi_vars : String
deriving DecidableEq

/-- Source `schema.rs::Hardware` (u32 numeric fields). -/
structure Hardware where
  cpu_model : String
  sockets : Nat
  cores : Nat
  threads : Nat
  mem_mb : Nat
  machine : String
  accel : String
  mac : String
deriving DecidableEq

/-- Source `schema.rs::Firmware`. -/
structure Firmware where
  code : String
  vars_template : String
deriving DecidableEq

/-- Source `schema.rs::Forwards` (u16 fields). -/
structure Forwards where
  ssh : Nat
  meye : Nat
deriving DecidableEq

/-- Source `schema.rs::Network`. -/
structure Network where
  mode : String
  bridge_if : String
  forwards : Forwards
deriving DecidableEq

/-- Source `schema.rs::Vnc` (u8 `display`). -/
structure Vnc where
  use_unix : Bool
  host : String
  display : Nat
  sock : String
deriving DecidableEq

/-- Source `schema.rs::Spice` (u16 `port`). -/
structure Spice where
  use_unix : Bool
  addr : String
  port : Nat
  disable_ticketing : Bool
  sock : String
deriving DecidableEq

/-- Source `schema.rs::Display`. -/
structure Display where
  mode : String
  vnc : Vnc
  spice : Spice
deriving DecidableEq

/-- Source `schema.rs::VmConfig` — the VM descriptor. -/
structure VmConfig where
  meta : Meta
  paths : Paths
  hardware : Hardware
  firmware : Firmware
  network : Network
  display : Display
deriving DecidableEq

/-- Source `Forwards::default()`. -/
def Forwards.defaultVal : Forwards := ⟨0, 0⟩

/-! Serialisation (the `#[derive(Serialize)]` field order of `schema.rs`). -/

def Meta.toJson (m : Meta) : Json :=
  .obj [("version", .num (.ofNat m.version)), ("generated", .str m.generated),
        ("name", .str m.name), ("arch", .str m.arch), ("uuid", .str m.uuid)]

def Paths.toJson (p : Paths) : Json :=
  .obj [("root", .str p.root), ("disk", .str p.disk), ("efi_vars", .str p.efi_vars)]

def Hardware.toJson (h : Hardware) : Json :=
  .obj [("cpu_model", .str h.cpu_model), ("sockets", .num (.ofNat h.sockets)),
        ("cores", .num (.ofNat h.cores)), ("threads", .num (.ofNat h.threads)),
        ("mem_mb", .num (.ofNat h.mem_mb)), ("machine", .str h.machine),
        ("accel", .str h.accel), ("mac", .str h.mac)]

def Firmware.toJson (f : Firmware) : Json :=
  .obj [("code", .str f.code), ("vars_template", .str f.vars_template)]

def Forwards.toJson (f : Forwards) : Json :=
  .obj [("ssh", .num (.ofNat f.ssh)), ("meye", .num (.ofNat f.meye))]

def Network.toJson (n : Network) : Json :=
  .obj [("mode", .str n.mode), ("bridge_if", .str n.bridge_if),
        ("forwards", n.forwards.toJson)]

def Vnc.toJson (v : Vnc) : Json :=
  .obj [("use_unix", .bool v.use_unix), ("host", .str v.host),
        ("display", .num (.ofNat v.display)), ("sock", .str v.sock)]

def Spice.toJson (s : Spice) : Json :=
  .obj [("use_unix", .bool s.use_unix), ("addr", .str s.addr),
        ("port", .num (.ofNat s.port)), ("disable_ticketing", .bool s.disable_ticketing),
        ("sock", .str s.sock)]

def Display.toJson (d : Display) : Json :=
  .obj [("mode", .str d.mode), ("vnc", d.vnc.toJson), ("spice", d.spice.toJson)]

def VmConfig.toJson (c : VmConfig) : Json :=
  .obj [("meta", c.meta.toJson), ("paths", c.paths.toJson),
        ("hardware", c.hardware.toJson), ("firmware", c.firmware.toJson),
        ("network", c.network.toJson), ("display", c.display.toJson)]

/-! Deserialisation (the `#[derive(Deserialize)]` logic: every field is
looked up by name and converted at its declared type; any missing field or
type mismatch fails). -/

def Meta.fromJson (j : Json) : Option Meta :=
  match objFields j with
  | none => none
  | some flds =>
    match jLookup flds "version", jLookup flds "generated", jLookup flds "name",
        jLookup flds "arch", jLookup flds "uuid" with
    | some j1, some j2, some j3, some j4, some j5 =>
      match asU32 j1, asStr j2, asStr j3, asStr j4, asStr j5 with
      | some version, some generated, some name, some arch, some uuid =>
        some ⟨version, generated, name, arch, uuid⟩
      | _, _, _, _, _ => none
    | _, _, _, _, _ => none

def Paths.fromJson (j : Json) : Option Paths :=
  match objFields j with
  | none => none
  | some flds =>
    match jLookup flds "root", jLookup flds "disk", jLookup flds "efi_vars" with
    | some j1, some j2, some j3 =>
      match asStr j1, asStr j2, asStr j3 with
      | some root, some disk, some efi_vars => some ⟨root, disk, efi_vars⟩
      | _, _, _ => none
    | _, _, _ => none

def Hardware.fromJson (j : Json) : Option Hardware :=
  match objFields j with
  | none => none
  | some flds =>
    match jLookup flds "cpu_model", jLookup flds "sockets", jLookup flds "cores",
        jLookup flds "threads", jLookup flds "mem_mb", jLookup flds "machine",
        jLookup flds "accel", jLookup flds "mac" with
    | some j1, some j2, some j3, some j4, some j5, some j6, some j7, some j8 =>
      match asStr j1, asU32 j2, asU32 j3, asU32 j4, asU32 j5, asStr j6,
          asStr j7, asStr j8 with
      | some cpu_model, some sockets, some cores, some threads, some mem_mb,
          some machine, some accel, some mac =>
        some ⟨cpu_model, sockets, cores, threads, mem_mb, machine, accel, mac⟩
      | _, _, _, _, _, _, _, _ => none
    | _, _, _, _, _, _, _, _ => none

def Firmware.fromJson (j : Json) : Option Firmware :=
  match objFields j with
  | none => none
  | some flds =>
    match jLookup flds "code", jLookup flds "vars_template" with
    | some j1, some j2 =>
      match asStr j1, asStr j2 with
      | some code, some vars_template => some ⟨code, vars_template⟩
      | _, _ => none
    | _, _ => none

def Forwards.fromJson (j : Json) : Option Forwards :=
  match objFields j with
  | none => none
  | some flds =>
    match jLookup flds "ssh", jLookup flds "meye" with
    | some j1, some j2 =>
      match asU16 j1, asU16 j2 with
      | some ssh, some meye => some ⟨ssh, meye⟩
      | _, _ => none
    | _, _ => none

def Network.fromJson (j : Json) : Option Network :=
  match objFields j with
  | none => none
  | some flds =>
    match jLookup flds "mode", jLookup flds "bridge_if", jLookup flds "forwards" with
    | some j1, some j2, some j3 =>
      match asStr j1, asStr j2, Forwards.fromJson j3 with
      | some mode, some bridge_if, some forwards => some ⟨mode, bridge_if, forwards⟩
      | _, _, _ => none
    | _, _, _ => none

def Vnc.fromJson (j : Json) : Option Vnc :=
  match objFields j with
  | none => none
  | some flds =>
    match jLookup flds "use_unix", jLookup flds "host", jLookup flds "display",
        jLookup flds "sock" with
    | some j1, some j2, some j3, some j4 =>
      match asBool j1, asStr j2, asU8 j3, asStr j4 with
      | some use_unix, some host, some display, some sock =>
        some ⟨use_unix, host, display, sock⟩
      | _, _, _, _ => none
    | _, _, _, _ => none

def Spice.fromJson (j : Json) : Option Spice :=
  match objFields j with
  | none => none
  | some flds =>
    match jLookup flds "use_unix", jLookup flds "addr", jLookup flds "port",
        jLookup flds "disable_ticketing", jLookup flds "sock" with
    | some j1, some j2, some j3, some j4, some j5 =>
      match asBool j1, asStr j2, asU16 j3, asBool j4, asStr j5 with
      | some use_unix, some addr, some port, some disable_ticketing, some sock =>
        some ⟨use_unix, addr, port, disable_ticketing, sock⟩
      | _, _, _, _, _ => none
    | _, _, _, _, _ => none

def Display.fromJson (j : Json) : Option Display :=
  match objFields j with
  | none => none
  | some flds =>
    match jLookup flds "mode", jLookup flds "vnc", jLookup flds "spice" with
    | some j1, some j2, some j3 =>
      match asStr j1, Vnc.fromJson j2, Spice.fromJson j3 with
      | some mode, some vnc, some spice => some ⟨mode, vnc, spice⟩
      | _, _, _ => none
    | _, _, _ => none

def VmConfig.fromJson (j : Json) : Option VmConfig :=
  match objFields j with
  | none => none
  | some flds =>
    match jLookup flds "meta", jLookup flds "paths", jLookup flds "hardware",
        jLookup flds "firmware", jLookup flds "network", jLookup flds "display" with
    | some j1, some j2, some j3, some j4, some j5, some j6 =>
      match Meta.fromJson j1, Paths.fromJson j2, Hardware.fromJson j3,
          Firmware.fromJson j4, Network.fromJson j5, Display.fromJson j6 with
      | some meta, some paths, some hardware, some firmware, some network,
          some display =>
        some ⟨meta, paths, hardware, firmware, network, display⟩
      | _, _, _, _, _, _ => none
    | _, _, _, _, _, _ => none

/-- A descriptor representable at the Rust types: every numeric field fits
its declared unsigned width. -/
def VmConfig.InRange (c : VmConfig) : Prop :=
  c.meta.version < 4294967296 ∧
  c.hardware.sockets < 4294967296 ∧
  c.hardware.cores < 4294967296 ∧
  c.hardware.threads < 4294967296 ∧
  c.hardware.mem_mb < 4294967296 ∧
  c.network.forwards.ssh < 65536 ∧
  c.network.forwards.meye < 65536 ∧
  c.display.vnc.display < 256 ∧
  c.display.spice.port < 65536

instance (c : VmConfig) : Decidable c.InRange := by
  unfold VmConfig.InRange; infer_instance

/-! Round-trip lemmas for the descriptor schema. -/

theorem meta_fromJson_toJson (m : Meta) (h : m.version < 4294967296) :
    Meta.fromJson (Meta.toJson m) = some m := by
  simp [Meta.toJson, Meta.fromJson, jLookup, asStr, objFields, asU32, asUInt, h]

theorem paths_fromJson_toJson (p : Paths) :
    Paths.fromJson (Paths.toJson p) = some p := by
  simp [Paths.toJson, Paths.fromJson, jLookup, asStr, objFields]

theorem hardware_fromJson_toJson (h : Hardware)
    (h1 : h.sockets < 4294967296) (h2 : h.cores < 4294967296)
    (h3 : h.threads < 4294967296) (h4 : h.mem_mb < 4294967296) :
    Hardware.fromJson (Hardware.toJson h) = some h := by
  simp [Hardware.toJson, Hardware.fromJson, jLookup, asStr, objFields, asU32,
    asUInt, h1, h2, h3, h4]

theorem firmware_fromJson_toJson (f : Firmware) :
    Firmware.fromJson (Firmware.toJson f) = some f := by
  simp [Firmware.toJson, Firmware.fromJson, jLookup, asStr, objFields]

theorem forwards_fromJson_toJson (f : Forwards)
    (h1 : f.ssh < 65536) (h2 : f.meye < 65536) :
    Forwards.fromJson (Forwards.toJson f) = some f := by
  simp [Forwards.toJson, Forwards.fromJson, jLookup, objFields, asU16, asUInt, h1, h2]

theorem network_fromJson_toJson (n : Network)
    (h1 : n.forwards.ssh < 65536) (h2 : n.forwards.meye < 65536) :
    Network.fromJson (Network.toJson n) = some n := by
  have e := forwards_fromJson_toJson n.forwards h1 h2
  simp [Network.toJson, Network.fromJson, jLookup, asStr, objFields, e]

theorem vnc_fromJson_toJson (v : Vnc) (h1 : v.display < 256) :
    Vnc.fromJson (Vnc.toJson v) = some v := by
  simp [Vnc.toJson, Vnc.fromJson, jLookup, asStr, asBool, objFields, asU8, asUInt, h1]

theorem spice_fromJson_toJson (s : Spice) (h1 : s.port < 65536) :
    Spice.fromJson (Spice.toJson s) = some s := by
  simp [Spice.toJson, Spice.fromJson, jLookup, asStr, asBool, objFields, asU16,
    asUInt, h1]

theorem display_fromJson_toJson (d : Display)
    (h1 : d.vnc.display < 256) (h2 : d.spice.port < 65536) :
    Display.fromJson (Display.toJson d) = some d := by
  have e1 := vnc_fromJson_toJson d.vnc h1
  have e2 := spice_fromJson_toJson d.spice h2
  simp [Display.toJson, Display.fromJson, jLookup, asStr, objFields, e1, e2]

/-- C8: serialising any descriptor constructible at the Rust types (all
numeric fields within their declared widths) and deserialising it again
yields a value equal in every field to the original. -/
theorem vmconfig_roundtrip (c : VmConfig) (h : c.InRange) :
    VmConfig.fromJson (VmConfig.toJson c) = some c := by
  obtain ⟨h1, h2, h3, h4, h5, h6, h7, h8, h9⟩ := h
  have e1 := meta_fromJson_toJson c.meta h1
  have e2 := paths_fromJson_toJson c.paths
  have e3 := hardware_fromJson_toJson c.hardware h2 h3 h4 h5
  have e4 := firmware_fromJson_toJson c.firmware
  have e5 := network_fromJson_toJson c.network h6 h7
  have e6 := display_fromJson_toJson c.display h8 h9
  simp [VmConfig.toJson, VmConfig.fromJson, jLookup, objFields,
    e1, e2, e3, e4, e5, e6]

/-! ## Filesystem and host-environment model -/

/-- Content of one file.  `text` is a file whose bytes read back as the
given string; `doc` is a JSON document file (stored at the
`serde_json::Value` level, see the module comment); `unreadable` is a file
that exists (`Path::exists` is true) but whose `read_to_string` fails. -/
inductive FileData where
  | text (s : String)
  | doc (j : Json)
  | unreadable

/-- A filesystem snapshot: a finite association of file paths to contents,
a finite set of directories, the entry names found when iterating
`/nix/store`, and the result of `Path::canonicalize` (`none` models a
canonicalisation error). -/
structure FS where
  files : List (String × FileData)
  dirs : List String
  storeEntries : List String
  canon : String → Option String

/-- Rust `Path::is_file` (a regular file exists at `p`). -/
def FS.isFile (fs : FS) (p : String) : Bool :=
  (fs.files.lookup p).isSome

/-- Rust `Path::is_dir`. -/
def FS.isDir (fs : FS) (p : String) : Bool :=
  fs.dirs.contains p

/-- Rust `Path::exists`. -/
def FS.pathExists (fs : FS) (p : String) : Bool :=
  fs.isFile p || fs.isDir p

/-- Content at `p`, `none` when no file exists there. -/
def FS.readFile (fs : FS) (p : String) : Option FileData :=
  fs.files.lookup p

/-- Rust `fs::remove_file` (on an existing file; callers in scope ignore the
error of removing a missing one). -/
def FS.removeFile (fs : FS) (p : String) : FS :=
  { fs with files := fs.files.filter (fun e => e.1 != p) }

/-- Rust `fs::write`-style creation/truncation of one file. -/
def FS.writeFile (fs : FS) (p : String) (d : FileData) : FS :=
  { fs with files := (p, d) :: fs.files.filter (fun e => e.1 != p) }

/-- Rust `fs::create_dir_all` (idempotent; ancestors of the storage root are
not tracked, the model only ever consults the paths it creates). -/
def FS.createDirAll (fs : FS) (p : String) : FS :=
  if fs.dirs.contains p then fs else { fs with dirs := p :: fs.dirs }

/-- Rust `fs::remove_dir_all root`: drop the directory and every file and
directory below it. -/
def FS.removeTree (fs : FS) (root : String) : FS :=
  { fs with
    files := fs.files.filter (fun e => !(e.1 == root || strStartsWith e.1 (root ++ "/")))
    dirs := fs.dirs.filter (fun d => !(d == root || strStartsWith d (root ++ "/"))) }

/-- Host environment outside the filesystem: home directory, `which`
lookup of bare executable names, the success bit of `ps -p <pid>`, the
exit status of `qemu-img create`, and the values produced by the UUID,
MAC-byte and clock sources at the moment of a create call. -/
structure SysEnv where
  home : Option String
  which : String → Option String
  psOk : Nat → Bool
  qemuImgOk : Bool
  uuid : String
  macBytes : Nat × Nat × Nat
  timestamp : String

/-- Typed counterparts of the `anyhow!` error values raised in the
source; each constructor carries exactly the data interpolated into the
corresponding message string. -/
inductive Err where
  | environment
  | notFound (name home : String)
  | vmRunning (name : String)
  | unsupportedArch (arch : String)
  | binaryNotFound (arch : String)
  | firmwareNotFound (arch : String)
  | diskProvisioning (size : String)
  | parseError
  | ioError
deriving DecidableEq

/-! ## `utils/paths.rs` -/

/-- Source `qvm_home`: `<home>/qvm`, or an environment error when the home
directory cannot be determined. -/
def qvm_home (env : SysEnv) : Except Err String :=
  match env.home with
  | none => .error .environment
  | some h => .ok (pathJoin h "qvm")

/-- Source `find_vm_dir`: `<home>/qvm/<name>.qvm` when that path exists on disk,
an error naming the VM and the storage root otherwise. -/
def find_vm_dir (env : SysEnv) (fs : FS) (name : String) : Except Err String :=
  match qvm_home env with
  | .error e => .error e
  | .ok home =>
    let vm_dir := pathJoin home (name ++ ".qvm")
    if !fs.pathExists vm_dir then .error (.notFound name home)
    else .ok vm_dir

/-! ## `utils/system.rs` -/

/-- Rust `str::parse::<u32>`: optional leading `+`, one or more ASCII
digits, value below `2^32`. -/
def parseU32 (s : String) : Option Nat :=
  let t := match s.toList with
    | c :: rest => if c == '+' then rest else c :: rest
    | [] => []
  if t.length > 0 && t.all charIsDigit then
    let n := t.foldl (fun acc c => acc * 10 + (c.toNat - 48)) 0
    if n < 4294967296 then some n else none
  else none

/-- What `read_to_string` + `trim` + `parse::<u32>` yields on a stored
file content (a `doc` file reads back as its JSON text, so only a bare
in-range non-negative number parses). -/
def FileData.asPid : FileData → Option Nat
  | .text s => parseU32 (strTrim s)
  | .doc (.num (.ofNat n)) => if n < 4294967296 then some n else none
  | .doc _ => none
  | .unreadable => none

/-- Source `is_vm_running`: result paired with the (possibly updated)
filesystem.  The pid-file is removed exactly when it exists but cannot be
read; a readable file whose content does not parse as a `u32` merely
yields `false`. -/
def is_vm_running (env : SysEnv) (fs : FS) (name : String) :
    Except Err Bool × FS :=
  match find_vm_dir env fs name with
  | .error e => (.error e, fs)
  | .ok vm_dir =>
    let pid_file := pathJoin vm_dir "vm.pid"
    if !fs.pathExists pid_file then (.ok false, fs)
    else
      match fs.readFile pid_file with
      | some .unreadable => (.ok false, fs.removeFile pid_file)
      | some fd =>
        match fd.asPid with
        | some pid => (.ok (env.psOk pid), fs)
        | none => (.ok false, fs)
      | none => (.ok false, fs)

/-- Source `pick_qemu_bin`: candidate list per architecture; absolute candidates
are used as-is, bare names resolved through the search path (falling back
to the bare name); the first existing regular file wins. -/
def pick_qemu_bin (env : SysEnv) (fs : FS) (arch : String) : Except Err String :=
  let cands : Option (List String) :=
    match arch with
    | "aarch64" => some ["/run/current-system/sw/bin/qemu-system-aarch64",
                         "qemu-system-aarch64"]
    | "x86_64" => some ["/run/current-system/sw/bin/qemu-system-x86_64",
                        "qemu-system-x86_64"]
    | _ => none
  match cands with
  | none => .error (.unsupportedArch arch)
  | some cs =>
    match cs.findSome? (fun c =>
        let p := if strStartsWith c "/" then c else (env.which c).getD c
        if fs.isFile p then some p else none) with
    | some p => .ok p
    | none => .error (.binaryNotFound arch)

/-! ## `vm/firmware.rs` -/

/-- The `.../share/qemu` directory derived from the hypervisor binary:
textual `bin/qemu-system-<arch>` → `share/qemu` substitution on the
canonicalised path when the `/bin/qemu-system-` marker is present,
otherwise grandparent-of-the-original-path joined with `share/qemu`,
otherwise the fixed system default. -/
def derivedShareDir (fs : FS) (qemu_bin arch : String) : String :=
  let bin_str := (fs.canon qemu_bin).getD qemu_bin
  if strContainsSub bin_str "/bin/qemu-system-" then
    if arch == "aarch64" then
      strReplaceAll bin_str "/bin/qemu-system-aarch64" "/share/qemu"
    else
      strReplaceAll bin_str "/bin/qemu-system-x86_64" "/share/qemu"
  else
    match (parentDir qemu_bin).bind parentDir with
    | some p => pathJoin p "share/qemu"
    | none => "/run/current-system/sw/share/qemu"

/-- The `/nix/store` scan: every entry whose name contains `-qemu-` and
whose `share/qemu` subdirectory exists, in iteration order. -/
def storeScanDirs (fs : FS) : List String :=
  fs.storeEntries.filterMap (fun name =>
    if strContainsSub name "-qemu-" then
      let q := pathJoin (pathJoin "/nix/store" name) "share/qemu"
      if fs.isDir q then some q else none
    else none)

/-- The ordered candidate directory list of `locate_firmware_from_qemu`. -/
def firmwareDirs (fs : FS) (qemu_bin arch : String) : List String :=
  derivedShareDir fs qemu_bin arch ::
  "/run/current-system/sw/share/qemu" ::
  "/nix/var/nix/profiles/system/sw/share/qemu" ::
  storeScanDirs fs

/-- The per-architecture `(code, vars)` filename pairs, in declaration
order; `none` for an unsupported architecture. -/
def firmwarePairs (arch : String) : Option (List (String × String)) :=
  match arch with
  | "aarch64" => some [("edk2-aarch64-code.fd", "edk2-arm-vars.fd"),
                       ("edk2-aarch64-code.fd", "edk2-aarch64-vars.fd")]
  | "x86_64" => some [("OVMF_CODE.fd", "OVMF_VARS.fd"),
                      ("edk2-x86_64-code.fd", "edk2-x86_64-vars.fd"),
                      ("edk2-x86_64-code.fd", "edk2-i386-vars.fd")]
  | _ => none

/-- The nested directory/pair loop of `locate_firmware_from_qemu`:
skip non-directories, inside a directory try the pairs in order, return
the first joined pair whose two paths are regular files. -/
def searchPairs (fs : FS) : List String → List (String × String) →
    Option (String × String)
  | [], _ => none
  | d :: rest, pairs =>
    if !fs.isDir d then searchPairs fs rest pairs
    else
      match pairs.findSome? (fun pr =>
          if fs.isFile (pathJoin d pr.1) && fs.isFile (pathJoin d pr.2) then
            some (pathJoin d pr.1, pathJoin d pr.2)
          else none) with
      | some cv => some cv
      | none => searchPairs fs rest pairs

/-- Source `locate_firmware_from_qemu`. -/
def locate_firmware_from_qemu (fs : FS) (qemu_bin arch : String) :
    Except Err (String × String) :=
  match firmwarePairs arch with
  | none => .error (.unsupportedArch arch)
  | some pairs =>
    match searchPairs fs (firmwareDirs fs qemu_bin arch) pairs with
    | some cv => .ok cv
    | none => .error (.firmwareNotFound arch)

/-- Source `get_default_firmware_paths`. -/
def get_default_firmware_paths (arch : String) : String × String :=
  if arch == "aarch64" then
    ("/run/current-system/sw/share/qemu/edk2-aarch64-code.fd",
     "/run/current-system/sw/share/qemu/edk2-arm-vars.fd")
  else
    ("/run/current-system/sw/share/qemu/OVMF_CODE.fd",
     "/run/current-system/sw/share/qemu/OVMF_VARS.fd")

/-! ## `vm/config.rs` (descriptor store) -/

/-- Source `save_conf`: write the serialised descriptor to `<root>/vm.json`
(creating or truncating it). -/
def save_conf (fs : FS) (cfg : VmConfig) : FS :=
  fs.writeFile (conf_path cfg.paths.root) (.doc cfg.toJson)

/-- Source `load_conf`: open `<home>/qvm/<name>.qvm/vm.json` and deserialise.
A missing file is an open error; a non-JSON or schema-mismatching file is
a parse error (`text` contents model non-JSON bytes, see the module
comment). -/
def load_conf (env : SysEnv) (fs : FS) (name : String) : Except Err VmConfig :=
  match qvm_home env with
  | .error e => .error e
  | .ok home =>
    let root := pathJoin home (name ++ ".qvm")
    match fs.readFile (conf_path root) with
    | none => .error .ioError
    | some (.doc j) =>
      match VmConfig.fromJson j with
      | some cfg => .ok cfg
      | none => .error .parseError
    | some _ => .error .parseError

/-! ## `vm/manager.rs` -/

/-- The confirmation test of `delete_vm`:
`matches!(input.trim().to_lowercase().as_str(), "y" | "yes")`. -/
def confirmAnswer (input : String) : Bool :=
  strToLower (strTrim input) == "y" || strToLower (strTrim input) == "yes"

/-- Source `VmManager::delete_vm`.  `input` is the line read from the operator
when `force` is not set (reading is modelled as always succeeding;
`remove_dir_all` on the existing, checked directory likewise). -/
def delete_vm (env : SysEnv) (fs : FS) (name : String) (force : Bool)
    (input : String) : Except Err Unit × FS :=
  match find_vm_dir env fs name with
  | .error e => (.error e, fs)
  | .ok vm_dir =>
    match is_vm_running env fs name with
    | (.error e, fs1) => (.error e, fs1)
    | (.ok true, fs1) => (.error (.vmRunning name), fs1)
    | (.ok false, fs1) =>
      match load_conf env fs1 name with
      | .error e => (.error e, fs1)
      | .ok _cfg =>
        if !force && !confirmAnswer input then (.ok (), fs1)
        else (.ok (), fs1.removeTree vm_dir)

/-! ## `vm/creator.rs` -/

/-- Source `CreateParams` (paths as strings, integers as `Nat` at their Rust
widths). -/
structure CreateParams where
  name : String
  arch : String
  cpu_model : String
  smp : Option Nat
  sockets : Option Nat
  cores : Option Nat
  threads : Option Nat
  mem : Nat
  net_mode : String
  bridge_if : String
  display_mode : String
  disk : Option String
  disk_size : Option String
  vnc_host : String
  vnc_display : Nat
  vnc_sock : Option String
  vnc_unix : Bool
  spice_addr : String
  spice_port : Nat
  spice_sock : Option String
  spice_unix : Bool
  spice_disable_ticketing : Bool

/-- The CPU-model normalisation of `create_vm`. -/
def normalize_cpu_model (arch cpu_model : String) : String :=
  if arch == "x86_64" && cpu_model == "host" then "qemu64" else cpu_model

/-- The topology decision of `create_vm`. -/
def resolve_topology (sockets cores threads smp : Option Nat) : Nat × Nat × Nat :=
  if sockets.isSome || cores.isSome || threads.isSome then
    (sockets.getD 1, cores.getD 1, threads.getD 1)
  else
    match smp with
    | some n => (1, Nat.max n 1, 1)
    | none => (1, 4, 1)

/-- One lowercase hex digit. -/
def hexDigit (n : Nat) : String :=
  (["0", "1", "2", "3", "4", "5", "6", "7", "8", "9",
    "a", "b", "c", "d", "e", "f"].getD n "0")

/-- Format `{:02x}` on a byte. -/
def hex2 (n : Nat) : String := hexDigit (n % 256 / 16) ++ hexDigit (n % 16)

/-- The `52:54:00:xx:xx:xx` MAC literal built in `create_vm`. -/
def macString (bytes : Nat × Nat × Nat) : String :=
  "52:54:00:" ++ hex2 bytes.1 ++ ":" ++ hex2 bytes.2.1 ++ ":" ++ hex2 bytes.2.2

/-- The VM root computed by `create_vm`: `<qvm-home>/<name>.qvm`. -/
def vmRootOf (home name : String) : String :=
  pathJoin home (name ++ ".qvm")

/-- The directory-creation and disk-provisioning phase of `create_vm`
(everything before the CPU-model normalisation): create the root
directory tree, then, when a size was requested and no file is at the
resolved disk path, run `qemu-img create -f qcow2 <path> <size>` — a
failing status is fatal; with no size request a missing disk is only a
warning. -/
def provisionDisk (env : SysEnv) (fs : FS) (home : String) (p : CreateParams) :
    Except Err FS :=
  let root := vmRootOf home p.name
  let fs1 := fs.createDirAll root
  let disk_abs := resolve_under_root root (p.disk.getD "disk.qcow2")
  match p.disk_size with
  | some sz =>
    if !fs1.pathExists disk_abs then
      if env.qemuImgOk then .ok (fs1.writeFile disk_abs (.text ""))
      else .error (.diskProvisioning sz)
    else .ok fs1
  | none => .ok fs1

/-- The descriptor assembled by `create_vm` once the hypervisor binary is
known: CPU-model normalisation, topology decision, firmware lookup with
warn-and-fall-back, and the literal `VmConfig` expression of the source. -/
def assembleConfig (env : SysEnv) (fs2 : FS) (p : CreateParams)
    (home qemu_bin : String) : VmConfig :=
  let root := vmRootOf home p.name
  let disk_rel_or_abs := p.disk.getD "disk.qcow2"
  let cpu_model_final := normalize_cpu_model p.arch p.cpu_model
  let topo := resolve_topology p.sockets p.cores p.threads p.smp
  let fw :=
    match locate_firmware_from_qemu fs2 qemu_bin p.arch with
    | .ok pair => pair
    | .error _ => get_default_firmware_paths p.arch
  { meta := { version := 1, generated := env.timestamp,
              name := p.name, arch := p.arch, uuid := env.uuid }
    paths := { root := root, disk := disk_rel_or_abs,
               efi_vars := "efi_vars.fd" }
    hardware := { cpu_model := cpu_model_final,
                  sockets := topo.1, cores := topo.2.1,
                  threads := topo.2.2, mem_mb := p.mem,
                  machine := if p.arch == "aarch64" then
                      "virt,gic-version=3" else "q35",
                  accel := if p.arch == "aarch64" then "hvf" else "kvm",
                  mac := macString env.macBytes }
    firmware := { code := fw.1, vars_template := fw.2 }
    network := { mode := p.net_mode, bridge_if := p.bridge_if,
                 forwards := Forwards.defaultVal }
    display := { mode := p.display_mode,
                 vnc := { use_unix := p.vnc_unix, host := p.vnc_host,
                          display := p.vnc_display,
                          sock := p.vnc_sock.getD "vnc.sock" }
                 spice := { use_unix := p.spice_unix,
                            addr := p.spice_addr,
                            port := p.spice_port,
                            disable_ticketing := p.spice_disable_ticketing,
                            sock := p.spice_sock.getD "spice.sock" } } }

/-- Source `VmCreator::create_vm`.  Returns the persisted descriptor together
with the final filesystem; the external `qemu-img` invocation is modelled
by its exit status plus the file it creates on success. -/
def create_vm (env : SysEnv) (fs : FS) (p : CreateParams) :
    Except Err (VmConfig × FS) :=
  match qvm_home env with
  | .error e => .error e
  | .ok home =>
    match provisionDisk env fs home p with
    | .error e => .error e
    | .ok fs2 =>
      match pick_qemu_bin env fs2 p.arch with
      | .error e => .error e
      | .ok qemu_bin =>
        .ok (assembleConfig env fs2 p home qemu_bin,
             save_conf fs2 (assembleConfig env fs2 p home qemu_bin))

/-! ## Spec-side characterisation of the firmware search (for the
refinement claim): the flattened, ordered directory × pair grid, first
combination whose two joined paths are regular files. -/

/-- Spec wording: walk directories outer-to-inner and, within each
directory, the pairs in declaration order; return the first combination
where both files exist and are regular files. -/
def specFirstHit (fs : FS) (dirs : List String) (pairs : List (String × String)) :
    Option (String × String) :=
  ((dirs.map (fun d => pairs.map (fun pr => (pathJoin d pr.1, pathJoin d pr.2)))).flatten).find?
    (fun cv => fs.isFile cv.1 && fs.isFile cv.2)

/-- Holds (`true`) when no candidate directory that is not actually a directory
nevertheless shows a full firmware pair as regular files beneath it (on a
real filesystem files only live inside directories, so every snapshot
taken from disk satisfies this). -/
def dirHygiene (fs : FS) (dirs : List String) (pairs : List (String × String)) : Bool :=
  dirs.all (fun d => fs.isDir d ||
    pairs.all (fun pr => !(fs.isFile (pathJoin d pr.1) && fs.isFile (pathJoin d pr.2))))

theorem find?_append {α : Type} (l1 l2 : List α) (p : α → Bool) :
    (l1 ++ l2).find? p = ((l1.find? p).or (l2.find? p)) := by
  induction l1 with
  | nil => simp
  | cons a l ih =>
    by_cases h : p a <;> simp [List.find?_cons, h, ih]

theorem searchPairs_dir_eq (fs : FS) (d : String) (pairs : List (String × String)) :
    pairs.findSome? (fun pr =>
        if fs.isFile (pathJoin d pr.1) && fs.isFile (pathJoin d pr.2) then
          some (pathJoin d pr.1, pathJoin d pr.2)
        else none) =
      (pairs.map (fun pr => (pathJoin d pr.1, pathJoin d pr.2))).find?
        (fun cv => fs.isFile cv.1 && fs.isFile cv.2) := by
  induction pairs with
  | nil => rfl
  | cons pr rest ih =>
    cases h : (fs.isFile (pathJoin d pr.1) && fs.isFile (pathJoin d pr.2)) with
    | true =>
      simp only [List.findSome?_cons, List.map_cons, List.find?_cons, h, if_true]
    | false =>
      simp only [List.findSome?_cons, List.map_cons, List.find?_cons, h,
        Bool.false_eq_true, if_false]
      exact ih

theorem searchPairs_eq_specFirstHit (fs : FS) (dirs : List String)
    (pairs : List (String × String)) (hclean : dirHygiene fs dirs pairs = true) :
    searchPairs fs dirs pairs = specFirstHit fs dirs pairs := by
  induction dirs with
  | nil => rfl
  | cons d rest ih =>
    have hparts := hclean
    unfold dirHygiene at hparts
    simp only [List.all_cons, Bool.and_eq_true] at hparts
    obtain ⟨hcd, hrest0⟩ := hparts
    have hrest : dirHygiene fs rest pairs = true := hrest0
    have espec : specFirstHit fs (d :: rest) pairs =
        (((pairs.map (fun pr => (pathJoin d pr.1, pathJoin d pr.2))).find?
            (fun cv => fs.isFile cv.1 && fs.isFile cv.2)).or
          (specFirstHit fs rest pairs)) := by
      unfold specFirstHit
      rw [List.map_cons, List.flatten_cons, find?_append]
    rw [searchPairs, espec]
    cases hd : fs.isDir d with
    | true =>
      rw [if_neg (by simp [hd]), searchPairs_dir_eq fs d pairs, ih hrest]
      cases hF : (pairs.map (fun pr => (pathJoin d pr.1, pathJoin d pr.2))).find?
          (fun cv => fs.isFile cv.1 && fs.isFile cv.2) with
      | some cv => rfl
      | none => rfl
    | false =>
      have hall : pairs.all (fun pr =>
          !(fs.isFile (pathJoin d pr.1) && fs.isFile (pathJoin d pr.2))) = true := by
        simpa [hd] using hcd
      have hnone : (pairs.map (fun pr => (pathJoin d pr.1, pathJoin d pr.2))).find?
          (fun cv => fs.isFile cv.1 && fs.isFile cv.2) = none := by
        rw [List.find?_eq_none]
        intro cv hcv
        rcases List.mem_map.mp hcv with ⟨pr, hpr, rfl⟩
        have h3 := List.all_eq_true.mp hall pr hpr
        have h2 : (fs.isFile (pathJoin d pr.1) && fs.isFile (pathJoin d pr.2)) = false := by
          cases hb : (fs.isFile (pathJoin d pr.1) && fs.isFile (pathJoin d pr.2)) with
          | false => rfl
          | true => rw [hb] at h3; exact absurd h3 (by decide)
        simp [h2]
      rw [if_pos (by simp [hd]), ih hrest, hnone]
      rfl

/-! ## Behaviour lemmas for the liveness checker -/

/-- Complete mutation analysis of `is_vm_running`: either the pid marker
existed but was unreadable (then it is removed and `false` returned), or
the filesystem comes back untouched. -/
theorem is_vm_running_shape (env : SysEnv) (fs : FS) (name : String) :
    (∃ d, find_vm_dir env fs name = .ok d ∧
       fs.pathExists (pathJoin d "vm.pid") = true ∧
       fs.readFile (pathJoin d "vm.pid") = some .unreadable ∧
       is_vm_running env fs name =
         (.ok false, fs.removeFile (pathJoin d "vm.pid"))) ∨
    (is_vm_running env fs name).2 = fs := by
  cases hfd : find_vm_dir env fs name with
  | error e => right; unfold is_vm_running; rw [hfd]
  | ok d =>
    cases hex : fs.pathExists (pathJoin d "vm.pid") with
    | false => right; unfold is_vm_running; rw [hfd]; simp [hex]
    | true =>
      cases hrf : fs.readFile (pathJoin d "vm.pid") with
      | none => right; unfold is_vm_running; rw [hfd]; simp [hex, hrf]
      | some fd =>
        cases fd with
        | unreadable =>
          left
          refine ⟨d, rfl, hex, hrf, ?_⟩
          unfold is_vm_running; rw [hfd]; simp [hex, hrf]
        | text s =>
          right; unfold is_vm_running; rw [hfd]
          cases hp : (FileData.text s).asPid <;> simp [hex, hrf, hp]
        | doc j =>
          right; unfold is_vm_running; rw [hfd]
          cases hp : (FileData.doc j).asPid <;> simp [hex, hrf, hp]

/-- When the liveness check reports `running`, it has not touched the
filesystem. -/
theorem is_vm_running_of_true (env : SysEnv) (fs : FS) (name : String)
    (h : (is_vm_running env fs name).1 = .ok true) :
    is_vm_running env fs name = (.ok true, fs) := by
  have hsnd : (is_vm_running env fs name).2 = fs := by
    rcases is_vm_running_shape env fs name with ⟨d, _, _, _, hrun⟩ | hfs
    · rw [hrun] at h; simp at h
    · exact hfs
  have : is_vm_running env fs name =
      ((is_vm_running env fs name).1, (is_vm_running env fs name).2) := rfl
  rw [this, h, hsnd]

/-- A successful liveness verdict presupposes that `find_vm_dir`
succeeded. -/
theorem is_vm_running_ok_dir (env : SysEnv) (fs : FS) (name : String) (b : Bool)
    (h : (is_vm_running env fs name).1 = .ok b) :
    ∃ d, find_vm_dir env fs name = .ok d := by
  cases hfd : find_vm_dir env fs name with
  | error e =>
    unfold is_vm_running at h
    rw [hfd] at h
    simp at h
  | ok d => exact ⟨d, rfl⟩

/-! ## Claim C1 -/

/-- C1: deleting a VM whose directory exists and whose liveness check
reports it running fails with the VM-running error (which carries the VM
name, rendered by the source as the stop-it-first message) and leaves the
filesystem — root directory, descriptor and every other file — exactly as
it was, for either value of `force`. -/
theorem delete_vm_blocked_on_running (env : SysEnv) (fs : FS) (name : String)
    (force : Bool) (input : String)
    (hrun : (is_vm_running env fs name).1 = .ok true) :
    delete_vm env fs name force input = (.error (.vmRunning name), fs) := by
  obtain ⟨d, hd⟩ := is_vm_running_ok_dir env fs name true hrun
  have hpair := is_vm_running_of_true env fs name hrun
  unfold delete_vm
  rw [hd, hpair]

/-- Witness for C1: a concrete VM `demo` with a live pid 42. -/
def fsDemoRunning : FS :=
  { files := [("/home/u/qvm/demo.qvm/vm.pid", .text "42"),
              ("/home/u/qvm/demo.qvm/vm.json", .text "{}")]
    dirs := ["/home/u/qvm", "/home/u/qvm/demo.qvm"]
    storeEntries := []
    canon := fun _ => none }

def envDemo : SysEnv :=
  { home := some "/home/u"
    which := fun _ => none
    psOk := fun pid => pid == 42
    qemuImgOk := true
    uuid := "00000000-0000-4000-8000-000000000000"
    macBytes := (1, 2, 3)
    timestamp := "2024-01-01T00:00:00+00:00" }

theorem delete_vm_blocked_on_running_witness :
    (is_vm_running envDemo fsDemoRunning "demo").1 = .ok true ∧
    delete_vm envDemo fsDemoRunning "demo" false "" =
      (.error (.vmRunning "demo"), fsDemoRunning) :=
  ⟨rfl, delete_vm_blocked_on_running envDemo fsDemoRunning "demo" false "" rfl⟩

/-! ## Behaviour lemmas for `create_vm` -/

/-- A successful `create_vm` persists exactly the assembled descriptor:
its CPU model is the normalised one, its topology the resolved one, and
its fixed fields are the source literals. -/
theorem create_vm_ok_fields (env : SysEnv) (fs : FS) (p : CreateParams)
    (cfg : VmConfig) (fsEnd : FS)
    (h : create_vm env fs p = .ok (cfg, fsEnd)) :
    cfg.paths.efi_vars = "efi_vars.fd" ∧
    cfg.meta.version = 1 ∧
    cfg.hardware.cpu_model = normalize_cpu_model p.arch p.cpu_model ∧
    (cfg.hardware.sockets, cfg.hardware.cores, cfg.hardware.threads) =
      resolve_topology p.sockets p.cores p.threads p.smp := by
  unfold create_vm at h
  cases hq : qvm_home env with
  | error e => rw [hq] at h; exact absurd h (by simp)
  | ok home =>
    rw [hq] at h
    dsimp only at h
    cases hpv : provisionDisk env fs home p with
    | error e => rw [hpv] at h; exact absurd h (by simp)
    | ok fs2 =>
      rw [hpv] at h
      dsimp only at h
      cases hb : pick_qemu_bin env fs2 p.arch with
      | error e => rw [hb] at h; exact absurd h (by simp)
      | ok qemu_bin =>
        rw [hb] at h
        dsimp only at h
        simp only [Except.ok.injEq, Prod.mk.injEq] at h
        obtain ⟨hcfg, _⟩ := h
        subst hcfg
        exact ⟨rfl, rfl, rfl, rfl⟩

/-! ## Claim C9 -/

/-- C9: every successful create call persists the fixed relative
EFI-variables path `efi_vars.fd` and schema version 1, whatever the
parameters. -/
theorem create_vm_fixed_fields (env : SysEnv) (fs : FS) (p : CreateParams)
    (cfg : VmConfig) (fsEnd : FS)
    (h : create_vm env fs p = .ok (cfg, fsEnd)) :
    cfg.paths.efi_vars = "efi_vars.fd" ∧ cfg.meta.version = 1 := by
  obtain ⟨h1, h2, _, _⟩ := create_vm_ok_fields env fs p cfg fsEnd h
  exact ⟨h1, h2⟩

/-- A filesystem holding only the aarch64 hypervisor binary (firmware
discovery falls back to the fixed defaults). -/
def fsCreate : FS :=
  { files := [("/run/current-system/sw/bin/qemu-system-aarch64", .text "")]
    dirs := []
    storeEntries := []
    canon := fun _ => none }

/-- Baseline create parameters: aarch64, `host` CPU model, no explicit
topology, no smp, no disk size. -/
def paramsBase : CreateParams :=
  { name := "demo", arch := "aarch64", cpu_model := "host",
    smp := none, sockets := none, cores := none, threads := none,
    mem := 1024, net_mode := "vmnet-shared", bridge_if := "en0",
    display_mode := "cocoa", disk := none, disk_size := none,
    vnc_host := "127.0.0.1", vnc_display := 1, vnc_sock := none,
    vnc_unix := false, spice_addr := "127.0.0.1", spice_port := 5930,
    spice_sock := none, spice_unix := false,
    spice_disable_ticketing := true }

/-- The descriptor and final filesystem a concrete create call yields. -/
def demoCfgOf (p : CreateParams) : VmConfig :=
  assembleConfig envDemo (fsCreate.createDirAll "/home/u/qvm/demo.qvm") p
    "/home/u/qvm" "/run/current-system/sw/bin/qemu-system-aarch64"

def demoFsEndOf (p : CreateParams) : FS :=
  save_conf (fsCreate.createDirAll "/home/u/qvm/demo.qvm") (demoCfgOf p)

theorem create_vm_fixed_fields_witness :
    create_vm envDemo fsCreate paramsBase =
      .ok (demoCfgOf paramsBase, demoFsEndOf paramsBase) ∧
    (demoCfgOf paramsBase).paths.efi_vars = "efi_vars.fd" ∧
    (demoCfgOf paramsBase).meta.version = 1 :=
  ⟨rfl, create_vm_fixed_fields envDemo fsCreate paramsBase
    (demoCfgOf paramsBase) (demoFsEndOf paramsBase) rfl⟩

/-! ## Claim C5 -/

/-- C5: the persisted CPU model is `qemu64` exactly when the architecture
is `x86_64` and the requested model is the literal `host`; in every other
case the requested model is persisted unchanged. -/
theorem create_vm_cpu_model (env : SysEnv) (fs : FS) (p : CreateParams)
    (cfg : VmConfig) (fsEnd : FS)
    (h : create_vm env fs p = .ok (cfg, fsEnd)) :
    (p.arch = "x86_64" → p.cpu_model = "host" →
      cfg.hardware.cpu_model = "qemu64") ∧
    (¬(p.arch = "x86_64" ∧ p.cpu_model = "host") →
      cfg.hardware.cpu_model = p.cpu_model) := by
  obtain ⟨_, _, hcm, _⟩ := create_vm_ok_fields env fs p cfg fsEnd h
  rw [hcm]
  unfold normalize_cpu_model
  constructor
  · intro ha hm
    rw [if_pos (by simp [ha, hm])]
  · intro hn
    rw [if_neg]
    simp only [Bool.and_eq_true, beq_iff_eq]
    exact fun hc => hn hc

/-- Witness for C5: `Create(arch="aarch64", cpuModel="host")` persists
`host` unchanged. -/
theorem create_vm_cpu_model_witness :
    paramsBase.arch = "aarch64" ∧ paramsBase.cpu_model = "host" ∧
    create_vm envDemo fsCreate paramsBase =
      .ok (demoCfgOf paramsBase, demoFsEndOf paramsBase) ∧
    (demoCfgOf paramsBase).hardware.cpu_model = "host" := by
  refine ⟨rfl, rfl, rfl, ?_⟩
  have h := create_vm_cpu_model envDemo fsCreate paramsBase
    (demoCfgOf paramsBase) (demoFsEndOf paramsBase) rfl
  exact h.2 (by intro hc; exact absurd hc.1 (by decide))

/-! ## Claim C4 -/

/-- C4 (amended): the persisted topology has priority explicit
sockets/cores/threads (absent fields default to 1) > `smp` (persisted as
`(1, max(N,1), 1)` — the code clamps the count at 1) > the fixed default
`(1, 4, 1)`. -/
theorem create_vm_topology (env : SysEnv) (fs : FS) (p : CreateParams)
    (cfg : VmConfig) (fsEnd : FS)
    (h : create_vm env fs p = .ok (cfg, fsEnd)) :
    (p.sockets.isSome ∨ p.cores.isSome ∨ p.threads.isSome →
      (cfg.hardware.sockets, cfg.hardware.cores, cfg.hardware.threads) =
        (p.sockets.getD 1, p.cores.getD 1, p.threads.getD 1)) ∧
    (p.sockets = none → p.cores = none → p.threads = none →
      (∀ n, p.smp = some n →
        (cfg.hardware.sockets, cfg.hardware.cores, cfg.hardware.threads) =
          (1, Nat.max n 1, 1)) ∧
      (p.smp = none →
        (cfg.hardware.sockets, cfg.hardware.cores, cfg.hardware.threads) =
          (1, 4, 1))) := by
  obtain ⟨_, _, _, htopo⟩ := create_vm_ok_fields env fs p cfg fsEnd h
  rw [htopo]
  unfold resolve_topology
  constructor
  · intro hsome
    rw [if_pos]
    rcases hsome with h1 | h1 | h1 <;> simp [h1]
  · intro hs hc ht
    rw [if_neg (by simp [hs, hc, ht])]
    constructor
    · intro n hn
      rw [hn]
    · intro hn
      rw [hn]

/-- Parameters with only `--smp 0`. -/
def paramsSmp0 : CreateParams := { paramsBase with smp := some 0 }

/-- C4 counterexample: with only `smp = 0`, the persisted topology is
`(1, 1, 1)` (the code clamps the count with `max(1)`), not the
`(1, 0, 1)` the claim predicts for `smp = N`. -/
theorem create_vm_smp0_counterexample :
    (create_vm envDemo fsCreate paramsSmp0).map
        (fun r => (r.1.hardware.sockets, r.1.hardware.cores, r.1.hardware.threads)) =
      .ok (1, 1, 1) ∧
    ((1 : Nat), (1 : Nat), (1 : Nat)) ≠ ((1 : Nat), (0 : Nat), (1 : Nat)) :=
  ⟨rfl, by decide⟩

/-- Parameters with explicit topology 2 × 4 × 2 and no `smp`. -/
def paramsTopo : CreateParams :=
  { paramsBase with sockets := some 2, cores := some 4, threads := some 2 }

/-- Witness for C4: explicit sockets=2, cores=4, threads=2 persists
`(2, 4, 2)`. -/
theorem create_vm_topology_witness :
    create_vm envDemo fsCreate paramsTopo =
      .ok (demoCfgOf paramsTopo, demoFsEndOf paramsTopo) ∧
    ((demoCfgOf paramsTopo).hardware.sockets,
     (demoCfgOf paramsTopo).hardware.cores,
     (demoCfgOf paramsTopo).hardware.threads) = (2, 4, 2) := by
  refine ⟨rfl, ?_⟩
  have h := create_vm_topology envDemo fsCreate paramsTopo
    (demoCfgOf paramsTopo) (demoFsEndOf paramsTopo) rfl
  exact h.1 (Or.inl rfl)

/-! ## Claim C7 -/

/-- If every explicit value of an optional field is positive, its
1-default is positive. -/
theorem one_le_getD_one (o : Option Nat) (ho : ∀ n, o = some n → 1 ≤ n) :
    1 ≤ o.getD 1 := by
  cases o with
  | none => simp
  | some n => simpa using ho n rfl

/-- C7 (amended): the persisted `sockets * cores * threads` is at least 1
whenever every explicitly supplied topology value is positive (the `smp`
path clamps at 1 and the default is positive; an explicit 0 is persisted
as 0 and breaks the bound, see the counterexample). -/
theorem create_vm_product_pos (env : SysEnv) (fs : FS) (p : CreateParams)
    (cfg : VmConfig) (fsEnd : FS)
    (h : create_vm env fs p = .ok (cfg, fsEnd))
    (hs : ∀ n, p.sockets = some n → 1 ≤ n)
    (hc : ∀ n, p.cores = some n → 1 ≤ n)
    (ht : ∀ n, p.threads = some n → 1 ≤ n) :
    1 ≤ cfg.hardware.sockets * cfg.hardware.cores * cfg.hardware.threads := by
  obtain ⟨_, _, _, htopo⟩ := create_vm_ok_fields env fs p cfg fsEnd h
  have e1 := congrArg Prod.fst htopo
  have e2 := congrArg (fun t => t.2.1) htopo
  have e3 := congrArg (fun t => t.2.2) htopo
  simp only at e1 e2 e3
  rw [e1, e2, e3]
  unfold resolve_topology
  cases hcond : (p.sockets.isSome || p.cores.isSome || p.threads.isSome) with
  | true =>
    simp only [reduceIte]
    exact Nat.mul_pos
      (Nat.mul_pos (one_le_getD_one p.sockets hs) (one_le_getD_one p.cores hc))
      (one_le_getD_one p.threads ht)
  | false =>
    cases hsmp : p.smp with
    | some n => simp [Nat.le_max_right]
    | none => simp

/-- Parameters with explicit `--sockets 0`. -/
def paramsSock0 : CreateParams := { paramsBase with sockets := some 0 }

/-- C7 counterexample: an explicit `sockets = 0` is persisted verbatim,
so the product of the persisted topology is 0, below the invariant bound
of 1. -/
theorem create_vm_product_counterexample :
    (create_vm envDemo fsCreate paramsSock0).map
        (fun r => r.1.hardware.sockets * r.1.hardware.cores * r.1.hardware.threads) =
      .ok 0 ∧ ¬(1 ≤ (0 : Nat)) :=
  ⟨rfl, by decide⟩

/-- Witness for C7: the explicit positive topology 2 × 4 × 2 satisfies
the bound. -/
theorem create_vm_product_pos_witness :
    create_vm envDemo fsCreate paramsTopo =
      .ok (demoCfgOf paramsTopo, demoFsEndOf paramsTopo) ∧
    1 ≤ (demoCfgOf paramsTopo).hardware.sockets *
        (demoCfgOf paramsTopo).hardware.cores *
        (demoCfgOf paramsTopo).hardware.threads := by
  have hs : ∀ n, paramsTopo.sockets = some n → 1 ≤ n := by
    intro n hn
    have hn2 : some 2 = some n := hn
    injection hn2 with h2
    omega
  have hc : ∀ n, paramsTopo.cores = some n → 1 ≤ n := by
    intro n hn
    have hn2 : some 4 = some n := hn
    injection hn2 with h2
    omega
  have ht : ∀ n, paramsTopo.threads = some n → 1 ≤ n := by
    intro n hn
    have hn2 : some 2 = some n := hn
    injection hn2 with h2
    omega
  exact ⟨rfl, create_vm_product_pos envDemo fsCreate paramsTopo
    (demoCfgOf paramsTopo) (demoFsEndOf paramsTopo) rfl hs hc ht⟩

/-! ## Claim C10 -/

/-- C10: for an existing VM whose pid marker is present but unreadable,
the liveness check removes the marker and reports `false`; and this is
the only situation in which the check mutates the filesystem at all. -/
theorem is_vm_running_unreadable_only_mutation (env : SysEnv) (fs : FS)
    (name d : String) (hdir : find_vm_dir env fs name = .ok d) :
    (fs.readFile (pathJoin d "vm.pid") = some .unreadable →
      is_vm_running env fs name =
        (.ok false, fs.removeFile (pathJoin d "vm.pid"))) ∧
    ((is_vm_running env fs name).2 ≠ fs →
      fs.readFile (pathJoin d "vm.pid") = some .unreadable) := by
  constructor
  · intro hrf
    have hex : fs.pathExists (pathJoin d "vm.pid") = true := by
      unfold FS.pathExists FS.isFile
      unfold FS.readFile at hrf
      simp [hrf]
    unfold is_vm_running
    rw [hdir]
    simp [hex, hrf]
  · intro hmut
    rcases is_vm_running_shape env fs name with ⟨d2, hd2, _, hrf2, _⟩ | hfs
    · rw [hdir] at hd2
      injection hd2 with hdd
      rw [hdd]
      exact hrf2
    · exact absurd hfs hmut

/-- A VM directory whose pid marker exists but cannot be read. -/
def fsUnreadablePid : FS :=
  { files := [("/home/u/qvm/demo.qvm/vm.pid", .unreadable),
              ("/home/u/qvm/demo.qvm/vm.json", .text "{}")]
    dirs := ["/home/u/qvm", "/home/u/qvm/demo.qvm"]
    storeEntries := []
    canon := fun _ => none }

theorem is_vm_running_unreadable_only_mutation_witness :
    find_vm_dir envDemo fsUnreadablePid "demo" = .ok "/home/u/qvm/demo.qvm" ∧
    fsUnreadablePid.readFile "/home/u/qvm/demo.qvm/vm.pid" = some .unreadable ∧
    is_vm_running envDemo fsUnreadablePid "demo" =
      (.ok false, fsUnreadablePid.removeFile "/home/u/qvm/demo.qvm/vm.pid") :=
  ⟨rfl, rfl,
    (is_vm_running_unreadable_only_mutation envDemo fsUnreadablePid "demo"
      "/home/u/qvm/demo.qvm" rfl).1 rfl⟩

/-! ## Claim C3 -/

/-- A VM directory whose pid marker is readable but holds no integer. -/
def fsStalePid : FS :=
  { files := [("/home/u/qvm/demo.qvm/vm.pid", .text "stale"),
              ("/home/u/qvm/demo.qvm/vm.json", .text "{}")]
    dirs := ["/home/u/qvm", "/home/u/qvm/demo.qvm"]
    storeEntries := []
    canon := fun _ => none }

/-- C3 counterexample: the pid marker contains `stale` (readable, not an
integer); the check returns `false` but the marker file is still there —
the claimed deletion does not happen (only an unreadable marker is
deleted). -/
theorem is_vm_running_unparsable_keeps_marker_counterexample :
    parseU32 (strTrim "stale") = none ∧
    (is_vm_running envDemo fsStalePid "demo").1 = .ok false ∧
    ((is_vm_running envDemo fsStalePid "demo").2).isFile
      "/home/u/qvm/demo.qvm/vm.pid" = true :=
  ⟨rfl, rfl, rfl⟩

/-- C3 (amended): for an existing VM whose pid marker is present and
readable but whose content does not parse as an integer, the liveness
check returns `false` and leaves the filesystem — the marker file
included — unchanged. -/
theorem is_vm_running_unparsable_content (env : SysEnv) (fs : FS)
    (name d s : String) (hdir : find_vm_dir env fs name = .ok d)
    (hrf : fs.readFile (pathJoin d "vm.pid") = some (.text s))
    (hp : parseU32 (strTrim s) = none) :
    is_vm_running env fs name = (.ok false, fs) := by
  have hex : fs.pathExists (pathJoin d "vm.pid") = true := by
    unfold FS.pathExists FS.isFile
    unfold FS.readFile at hrf
    simp [hrf]
  unfold is_vm_running
  rw [hdir]
  simp only [hex, Bool.not_true, Bool.false_eq_true, if_false, hrf]
  have : (FileData.text s).asPid = none := by
    unfold FileData.asPid
    exact hp
  rw [this]

theorem is_vm_running_unparsable_content_witness :
    fsStalePid.readFile "/home/u/qvm/demo.qvm/vm.pid" = some (.text "stale") ∧
    parseU32 (strTrim "stale") = none ∧
    is_vm_running envDemo fsStalePid "demo" = (.ok false, fsStalePid) :=
  ⟨rfl, rfl,
    is_vm_running_unparsable_content envDemo fsStalePid "demo"
      "/home/u/qvm/demo.qvm" "stale" rfl rfl rfl⟩

/-! ## Claim C2 -/

/-- A concrete descriptor as `create_vm` would persist it for the demo
VM. -/
def sampleCfg : VmConfig :=
  { meta := { version := 1, generated := "2024-01-01T00:00:00+00:00",
              name := "demo", arch := "aarch64",
              uuid := "00000000-0000-4000-8000-000000000000" }
    paths := { root := "/home/u/qvm/demo.qvm", disk := "disk.qcow2",
               efi_vars := "efi_vars.fd" }
    hardware := { cpu_model := "host", sockets := 1, cores := 4, threads := 1,
                  mem_mb := 4096, machine := "virt,gic-version=3",
                  accel := "hvf", mac := "52:54:00:01:02:03" }
    firmware := { code := "/run/current-system/sw/share/qemu/edk2-aarch64-code.fd",
                  vars_template := "/run/current-system/sw/share/qemu/edk2-arm-vars.fd" }
    network := { mode := "vmnet-shared", bridge_if := "en0",
                 forwards := { ssh := 0, meye := 0 } }
    display := { mode := "cocoa"
                 vnc := { use_unix := false, host := "127.0.0.1",
                          display := 1, sock := "vnc.sock" }
                 spice := { use_unix := false, addr := "127.0.0.1",
                            port := 5930, disable_ticketing := true,
                            sock := "spice.sock" } } }

/-- An existing, non-running demo VM with a loadable descriptor. -/
def fsDeletable : FS :=
  { files := [("/home/u/qvm/demo.qvm/vm.json", .doc sampleCfg.toJson),
              ("/home/u/qvm/demo.qvm/disk.qcow2", .text "")]
    dirs := ["/home/u/qvm", "/home/u/qvm/demo.qvm"]
    storeEntries := []
    canon := fun _ => none }

/-- C2 counterexample: the operator answers `" y"` — not the literal `y`
or `yes` even case-insensitively — yet the deletion proceeds and the VM
root is removed, because the source trims the input before comparing. -/
theorem delete_vm_untrimmed_input_counterexample :
    strToLower " y" ≠ "y" ∧ strToLower " y" ≠ "yes" ∧
    (delete_vm envDemo fsDeletable "demo" false " y").1 = .ok () ∧
    (delete_vm envDemo fsDeletable "demo" false " y").2.pathExists
      "/home/u/qvm/demo.qvm" = false :=
  ⟨by decide, by decide, rfl, rfl⟩

/-- C2 (amended): for an existing, non-running VM whose descriptor
loads, `Delete(name, force=false)` reads one line of input and removes
the VM root exactly when the input, after trimming surrounding
whitespace, equals `y` or `yes` case-insensitively; for every other
input nothing (beyond the liveness check itself) changes and the
operation returns success. -/
theorem delete_vm_confirmation (env : SysEnv) (fs fs1 : FS)
    (name input d : String) (cfg : VmConfig)
    (hdir : find_vm_dir env fs name = .ok d)
    (hrun : is_vm_running env fs name = (.ok false, fs1))
    (hload : load_conf env fs1 name = .ok cfg) :
    ((strToLower (strTrim input) = "y" ∨ strToLower (strTrim input) = "yes") →
      delete_vm env fs name false input = (.ok (), fs1.removeTree d)) ∧
    (strToLower (strTrim input) ≠ "y" → strToLower (strTrim input) ≠ "yes" →
      delete_vm env fs name false input = (.ok (), fs1)) := by
  unfold delete_vm
  rw [hdir, hrun]
  dsimp only
  rw [hload]
  constructor
  · intro hyes
    have hca : confirmAnswer input = true := by
      unfold confirmAnswer
      rcases hyes with h | h <;> simp [h]
    simp [hca]
  · intro h1 h2
    have hca : confirmAnswer input = false := by
      unfold confirmAnswer
      simp [h1, h2]
    simp [hca]

/-- Witness for C2 (amended): answering `YES` removes the root;
answering `nope` leaves the filesystem untouched and succeeds. -/
theorem delete_vm_confirmation_witness :
    is_vm_running envDemo fsDeletable "demo" = (.ok false, fsDeletable) ∧
    load_conf envDemo fsDeletable "demo" = .ok sampleCfg ∧
    delete_vm envDemo fsDeletable "demo" false "YES" =
      (.ok (), fsDeletable.removeTree "/home/u/qvm/demo.qvm") ∧
    delete_vm envDemo fsDeletable "demo" false "nope" = (.ok (), fsDeletable) := by
  refine ⟨rfl, rfl, ?_, ?_⟩
  · exact (delete_vm_confirmation envDemo fsDeletable fsDeletable "demo" "YES"
      "/home/u/qvm/demo.qvm" sampleCfg rfl rfl rfl).1 (Or.inr (by decide))
  · exact (delete_vm_confirmation envDemo fsDeletable fsDeletable "demo" "nope"
      "/home/u/qvm/demo.qvm" sampleCfg rfl rfl rfl).2 (by decide) (by decide)

/-! ## Claim C6 -/

/-- C6: on any snapshot where no phantom firmware pair sits under a
non-directory candidate, the locator returns exactly the first hit of
the ordered search — derived share directory first, then the two fixed
system defaults, then the package-store scan results, trying the
architecture's pairs in declaration order inside each directory — and
fails with the firmware error naming the architecture when no
combination exists. -/
theorem locate_firmware_first_match (fs : FS) (qemu_bin arch : String)
    (pairs : List (String × String)) (hp : firmwarePairs arch = some pairs)
    (hclean : dirHygiene fs (firmwareDirs fs qemu_bin arch) pairs = true) :
    locate_firmware_from_qemu fs qemu_bin arch =
      match specFirstHit fs
          (derivedShareDir fs qemu_bin arch ::
            "/run/current-system/sw/share/qemu" ::
            "/nix/var/nix/profiles/system/sw/share/qemu" ::
            storeScanDirs fs) pairs with
      | some cv => .ok cv
      | none => .error (.firmwareNotFound arch) := by
  unfold locate_firmware_from_qemu
  rw [hp]
  dsimp only
  rw [searchPairs_eq_specFirstHit fs (firmwareDirs fs qemu_bin arch) pairs hclean]
  rfl

/-- A snapshot with the OVMF pair in the first fixed system directory. -/
def fsFw : FS :=
  { files := [("/run/current-system/sw/share/qemu/OVMF_CODE.fd", .text ""),
              ("/run/current-system/sw/share/qemu/OVMF_VARS.fd", .text "")]
    dirs := ["/run/current-system/sw/share/qemu"]
    storeEntries := ["abc-qemu-8.2"]
    canon := fun _ => none }

theorem locate_firmware_first_match_witness :
    firmwarePairs "x86_64" =
      some [("OVMF_CODE.fd", "OVMF_VARS.fd"),
            ("edk2-x86_64-code.fd", "edk2-x86_64-vars.fd"),
            ("edk2-x86_64-code.fd", "edk2-i386-vars.fd")] ∧
    dirHygiene fsFw (firmwareDirs fsFw "/usr/bin/qemu-system-x86_64" "x86_64")
      [("OVMF_CODE.fd", "OVMF_VARS.fd"),
       ("edk2-x86_64-code.fd", "edk2-x86_64-vars.fd"),
       ("edk2-x86_64-code.fd", "edk2-i386-vars.fd")] = true ∧
    locate_firmware_from_qemu fsFw "/usr/bin/qemu-system-x86_64" "x86_64" =
      .ok ("/run/current-system/sw/share/qemu/OVMF_CODE.fd",
           "/run/current-system/sw/share/qemu/OVMF_VARS.fd") := by
  refine ⟨rfl, rfl, ?_⟩
  exact (locate_firmware_first_match fsFw "/usr/bin/qemu-system-x86_64" "x86_64"
    [("OVMF_CODE.fd", "OVMF_VARS.fd"),
     ("edk2-x86_64-code.fd", "edk2-x86_64-vars.fd"),
     ("edk2-x86_64-code.fd", "edk2-i386-vars.fd")] rfl rfl).trans rfl

/-! ## Claim C8 -/

/-- Witness for C8: the concrete demo descriptor round-trips. -/
theorem vmconfig_roundtrip_witness :
    sampleCfg.InRange ∧
    VmConfig.fromJson (VmConfig.toJson sampleCfg) = some sampleCfg :=
  ⟨by decide, vmconfig_roundtrip sampleCfg (by decide)⟩

end Qvm
